import Mathlib

/-!
Shallow embedding of the OllamaAssist Telegram bot core:
the conversation session store (package conversation), the backend API
client (package api) and the message dispatch handlers (package handlers),
together with the configuration loader (package config).

Network effects are made explicit: the HTTP layer is a parameter
(a function from the request to an abstract outcome), and each handler is
parameterized by the backend exchange function, so every code path of the
Go source becomes a pure, executable Lean function.
-/

/-- Model of api.ChatRequest: the JSON body sent to POST base/chat.
All four fields are Go strings; the zero value is the empty string. -/
structure ChatRequest where
  Input : String
  ConversationID : String
  UserID : String
  Title : String
deriving DecidableEq, Repr

/-- Model of api.ChatResponse: the decoded JSON reply of POST base/chat. -/
structure ChatResponse where
  Output : String
  ConversationID : String
deriving DecidableEq, Repr

/-- Model of api.Conversation as consumed by the handlers.
CreatedAt stands for the creation timestamp already rendered through the
fixed layout string used in HandleList (time formatting itself is opaque
here; only the rendered text reaches the reply). The Messages field of the
Go struct is never read by this core and is omitted from the model. -/
structure Conversation where
  ID : String
  Title : String
  CreatedAt : String
deriving DecidableEq, Repr

/-- Model of conversation.UserSession. -/
structure UserSession where
  UserID : String
  ConversationID : String
deriving DecidableEq, Repr

/-- Model of the sessions map of conversation.Manager
(map from int64 Telegram user IDs to sessions; a missing key is none,
matching the nil pointer the Go map yields). The mutex only serializes
access and has no sequential semantics, so it is not modelled. -/
def Sessions : Type := Int → Option UserSession

/-- Model of conversation.NewManager: the empty sessions map. -/
def NewManager : Sessions := fun _ => none

/-- Model of Manager.StartConversation: unconditionally installs a fresh
session for the user; the UserID field is left at its zero value. -/
def StartConversation (m : Sessions) (telegramUserID : Int)
    (conversationID : String) : Sessions :=
  fun k =>
    if k = telegramUserID then
      some { UserID := "", ConversationID := conversationID }
    else m k

/-- Model of Manager.GetSession: map lookup, none when absent. -/
def GetSession (m : Sessions) (telegramUserID : Int) : Option UserSession :=
  m telegramUserID

/-- Model of Manager.ClearSession: delete from the map. -/
def ClearSession (m : Sessions) (telegramUserID : Int) : Sessions :=
  fun k => if k = telegramUserID then none else m k

/-- Model of Manager.UpdateSession: wholesale replacement of the entry. -/
def UpdateSession (m : Sessions) (telegramUserID : Int)
    (session : UserSession) : Sessions :=
  fun k => if k = telegramUserID then some session else m k

/-- Taxonomy of Client errors: transport failure (connection or timeout),
non-success HTTP status, or a body that fails to decode. Marshalling the
request cannot fail in the source (a struct of four strings), so that Go
error branch is unreachable and not modelled. -/
inductive ApiError where
  | transport
  | protocol (statusCode : Nat)
  | decoding
deriving DecidableEq, Repr

/-- Abstract outcome of one HTTP POST: the status code and the result of
decoding the body into a ChatResponse (none when the body does not match
the expected shape). -/
structure HttpResponse where
  StatusCode : Nat
  DecodedBody : Option ChatResponse
deriving DecidableEq, Repr

/-- Model of http.StatusOK. -/
def StatusOK : Nat := 200

/-- Model of api.Client configuration built by api.NewClient:
base URL plus the fixed 30-second HTTP client timeout. -/
structure Client where
  baseURL : String
  timeoutSeconds : Nat
deriving DecidableEq, Repr

/-- Model of api.NewClient. -/
def NewClient (baseURL : String) : Client :=
  { baseURL := baseURL, timeoutSeconds := 30 }

/-- Model of Client.SendMessage. The network is the parameter post: it maps
the serialized request to none on transport failure (connection refused or
timeout) or to the HTTP response otherwise. The body mirrors the source:
transport error first, then the status check, then the decode. -/
def SendMessage (post : ChatRequest → Option HttpResponse)
    (req : ChatRequest) : Except ApiError ChatResponse :=
  match post req with
  | none => .error ApiError.transport
  | some resp =>
    if resp.StatusCode ≠ StatusOK then .error (ApiError.protocol resp.StatusCode)
    else
      match resp.DecodedBody with
      | none => .error ApiError.decoding
      | some chatResp => .ok chatResp

/-- Model of the inbound Telegram message surface the handlers read:
sender identity, chat identity, text, and the command-argument string. -/
structure Message where
  FromID : Int
  ChatID : Int
  Text : String
  CommandArguments : String
deriving DecidableEq, Repr

/-- Model of tgbotapi.MessageConfig as produced by tgbotapi.NewMessage:
target chat and reply text. -/
structure MessageConfig where
  ChatID : Int
  Text : String
deriving DecidableEq, Repr

/-- Model of tgbotapi.NewMessage. -/
def NewMessage (chatID : Int) (text : String) : MessageConfig :=
  { ChatID := chatID, Text := text }

/-- Helper for the model of strings.Fields: walks the characters, acc holds
the current field reversed. -/
def fieldsAux : List Char → List Char → List String
  | [], [] => []
  | [], acc => [String.mk acc.reverse]
  | c :: rest, acc =>
    if c = ' ' ∨ c = '\t' ∨ c = '\n' ∨ c = '\r' then
      match acc with
      | [] => fieldsAux rest []
      | _ => String.mk acc.reverse :: fieldsAux rest []
    else fieldsAux rest (c :: acc)

/-- Model of strings.Fields: split around runs of whitespace, no empty
fields. -/
def fields (s : String) : List String :=
  fieldsAux s.toList []

/-- Conversation identity read from the stored session in HandleMessage:
the session ConversationID when a session exists, the empty string
otherwise (the Go zero value of the local variable). -/
def sessionConversationID (sessions : Sessions) (userID : Int) : String :=
  match GetSession sessions userID with
  | some s => s.ConversationID
  | none => ""

/-- Chat request built by Handler.HandleMessage: the sender text, the
sender identity rendered in base 10, and the stored conversation identity
if any. -/
def messageRequest (sessions : Sessions) (msg : Message) : ChatRequest :=
  { Input := msg.Text
    UserID := toString msg.FromID
    ConversationID := sessionConversationID sessions msg.FromID
    Title := "" }

/-- Chat request built by the new-conversation branch of
Handler.HandleStart. -/
def startRequest (msg : Message) : ChatRequest :=
  { Input := "/start"
    UserID := toString msg.FromID
    ConversationID := ""
    Title := "New Conversation" }

/-- Model of Handler.HandleMessage. The backend call is the parameter api
(the partial application of SendMessage to a concrete network). Returns the
reply together with the resulting session store. -/
def HandleMessage (api : ChatRequest → Except ApiError ChatResponse)
    (sessions : Sessions) (msg : Message) : MessageConfig × Sessions :=
  match api (messageRequest sessions msg) with
  | .error _ => (NewMessage msg.ChatID "Error processing message", sessions)
  | .ok resp =>
    (NewMessage msg.ChatID resp.Output,
      if sessionConversationID sessions msg.FromID = "" then
        StartConversation sessions msg.FromID resp.ConversationID
      else sessions)

/-- Model of Handler.HandleStart: with an argument, load that conversation
locally without contacting the backend; with no argument, exchange the
fixed initiation payload and on success start a session with the returned
identity. -/
def HandleStart (api : ChatRequest → Except ApiError ChatResponse)
    (sessions : Sessions) (msg : Message) : MessageConfig × Sessions :=
  match fields msg.CommandArguments with
  | a :: _ =>
    (NewMessage msg.ChatID ("Loaded conversation: " ++ a),
      UpdateSession sessions msg.FromID { UserID := "", ConversationID := a })
  | [] =>
    match api (startRequest msg) with
    | .error _ => (NewMessage msg.ChatID "Error starting new conversation", sessions)
    | .ok resp =>
      (NewMessage msg.ChatID resp.Output,
        StartConversation sessions msg.FromID resp.ConversationID)

/-- One block of the listing reply, mirroring the Sprintf in HandleList. -/
def formatConversation (c : Conversation) : String :=
  "ID: " ++ c.ID ++ "\nTitle: " ++ c.Title ++ "\nCreated: " ++ c.CreatedAt ++ "\n\n"

/-- The strings.Builder loop of HandleList: blocks concatenated in the
order the list was delivered. -/
def renderConversations : List Conversation → String
  | [] => ""
  | c :: rest => formatConversation c ++ renderConversations rest

/-- Model of Handler.HandleList. The backend call result is the parameter
(the result of Client.GetConversations). -/
def HandleList (conversationsResult : Except ApiError (List Conversation))
    (msg : Message) : MessageConfig :=
  match conversationsResult with
  | .error _ => NewMessage msg.ChatID "Error retrieving conversations"
  | .ok conversations =>
    if conversations.length = 0 then NewMessage msg.ChatID "No conversations found"
    else
      NewMessage msg.ChatID ("Recent conversations:\n\n" ++ renderConversations conversations)

/-- Model of config.Config. -/
structure Config where
  TelegramToken : String
  APIServerURL : String
  DefaultConversationLimit : Int
deriving DecidableEq, Repr

/-- Model of config.getEnvOrDefault. The environment is a total function
from names to values, with the empty string standing for an unset variable
exactly as os.Getenv reports it. -/
def getEnvOrDefault (env : String → String) (key defaultValue : String) : String :=
  if env key ≠ "" then env key else defaultValue

/-- Model of config.getEnvIntOrDefault: strconv.Atoi is modelled by
String.toInt?, with the default on unset, empty or unparsable values. -/
def getEnvIntOrDefault (env : String → String) (key : String)
    (defaultValue : Int) : Int :=
  let strValue := env key
  if strValue = "" then defaultValue
  else
    match strValue.toInt? with
    | some value => value
    | none => defaultValue

/-- Model of config.New. -/
def Config.New (env : String → String) : Config :=
  { TelegramToken := getEnvOrDefault env "TELEGRAM_BOT_TOKEN" ""
    APIServerURL := getEnvOrDefault env "API_SERVER_URL" "http://localhost:8080"
    DefaultConversationLimit := getEnvIntOrDefault env "DEFAULT_CONVERSATION_LIMIT" 10 }

/-- The startup check in main: log.Fatal fires exactly when the configured
token is empty. -/
def startupFatal (cfg : Config) : Bool :=
  cfg.TelegramToken = ""

/-!
Shared concrete inputs used by witnesses, and shared helper lemmas.
-/

/-- Backend stub that always succeeds with the given response. -/
def okBackend (resp : ChatResponse) : ChatRequest → Except ApiError ChatResponse :=
  fun _ => .ok resp

/-- Backend stub that always fails with a transport error. -/
def failBackend : ChatRequest → Except ApiError ChatResponse :=
  fun _ => .error ApiError.transport

/-- Concrete inbound message for evaluation. -/
def sampleMsg (u : Int) (args : String) : Message :=
  { FromID := u, ChatID := u, Text := "hello", CommandArguments := args }

/-- Every conversation of the delivered list shows up, in one piece, inside
the rendered listing body. -/
theorem renderConversations_mem_split (c : Conversation) :
    ∀ l : List Conversation, c ∈ l →
      ∃ s t, renderConversations l = s ++ formatConversation c ++ t := by
  intro l hmem
  induction l with
  | nil => cases hmem
  | cons hd tl ih =>
    rcases List.mem_cons.mp hmem with heq | htl
    · subst heq
      exact ⟨"", renderConversations tl, by
        rw [String.empty_append]; rfl⟩
    · rcases ih htl with ⟨s, t, hst⟩
      exact ⟨formatConversation hd ++ s, t, by
        simp [renderConversations, hst, String.append_assoc]⟩

/-- Claim C6: start followed immediately by get returns a session whose
conversation identity is exactly the one given, whatever the prior store
held; the installed session is the whole fresh value (UserID at its zero),
so the prior session is discarded wholesale, not merged. -/
theorem startConversation_then_get (s : Sessions) (u : Int) (c : String) :
    GetSession (StartConversation s u c) u =
      some { UserID := "", ConversationID := c } := by
  simp [GetSession, StartConversation]

/-- Claim C7: clear followed by get returns the absent result, clear is
idempotent, and clearing a user with no session leaves the store exactly
as it was (a no-op, never an error). -/
theorem clearSession_absent_and_idempotent (s : Sessions) (u : Int) :
    GetSession (ClearSession s u) u = none ∧
    ClearSession (ClearSession s u) u = ClearSession s u ∧
    (GetSession s u = none → ClearSession s u = s) := by
  refine ⟨by simp [GetSession, ClearSession], ?_, ?_⟩
  · funext k
    by_cases hk : k = u <;> simp [ClearSession, hk]
  · intro h
    funext k
    by_cases hk : k = u
    · subst hk
      simpa [ClearSession] using h.symm
    · simp [ClearSession, hk]

/-- Closed instance of the C7 theorem at the empty store and user 5. -/
theorem clearSession_absent_and_idempotent_witness :
    GetSession (ClearSession NewManager 5) 5 = none ∧
    ClearSession NewManager 5 = NewManager :=
  ⟨(clearSession_absent_and_idempotent NewManager 5).1,
    (clearSession_absent_and_idempotent NewManager 5).2.2 rfl⟩

/-- Claim C1: on a successful freeform-text exchange, the reply carries the
backend output text; a stored session with a non-empty conversation
identity is left untouched (the whole store is unchanged); with no session,
or a session whose conversation identity is empty, a fresh session holding
the backend-returned identity is installed for the sender. -/
theorem handleMessage_success_postcondition
    (api : ChatRequest → Except ApiError ChatResponse)
    (sessions : Sessions) (msg : Message) (resp : ChatResponse)
    (h : api (messageRequest sessions msg) = .ok resp) :
    (HandleMessage api sessions msg).1 = NewMessage msg.ChatID resp.Output ∧
    (∀ s, GetSession sessions msg.FromID = some s → s.ConversationID ≠ "" →
      (HandleMessage api sessions msg).2 = sessions) ∧
    ((GetSession sessions msg.FromID = none ∨
        (∃ s, GetSession sessions msg.FromID = some s ∧ s.ConversationID = "")) →
      GetSession (HandleMessage api sessions msg).2 msg.FromID =
        some { UserID := "", ConversationID := resp.ConversationID }) := by
  refine ⟨by simp [HandleMessage, h], ?_, ?_⟩
  · intro s hs hne
    have hcid : sessionConversationID sessions msg.FromID = s.ConversationID := by
      simp [sessionConversationID, hs]
    simp [HandleMessage, h, hcid, hne]
  · intro hcase
    have hcid : sessionConversationID sessions msg.FromID = "" := by
      rcases hcase with hnone | ⟨s, hs, hemp⟩
      · simp [sessionConversationID, hnone]
      · simp [sessionConversationID, hs, hemp]
    simp [HandleMessage, h, hcid, GetSession, StartConversation]

/-- Closed instance of the C1 theorem: user 42 with no prior session, a
backend answering with output hi and identity abc123. -/
theorem handleMessage_success_postcondition_witness :
    (HandleMessage (okBackend { Output := "hi", ConversationID := "abc123" })
        NewManager (sampleMsg 42 "")).1 = NewMessage 42 "hi" ∧
    GetSession (HandleMessage (okBackend { Output := "hi", ConversationID := "abc123" })
        NewManager (sampleMsg 42 "")).2 42 =
      some { UserID := "", ConversationID := "abc123" } :=
  ⟨(handleMessage_success_postcondition _ NewManager (sampleMsg 42 "")
      { Output := "hi", ConversationID := "abc123" } rfl).1,
    (handleMessage_success_postcondition _ NewManager (sampleMsg 42 "")
      { Output := "hi", ConversationID := "abc123" } rfl).2.2 (Or.inl rfl)⟩

/-- Claim C2: a new-conversation command from a user with no prior session
whose backend exchange succeeds installs a session holding exactly the
backend-returned conversation identity, a subsequent get returns it, and
the reply carries the backend output text. -/
theorem handleStart_new_success
    (api : ChatRequest → Except ApiError ChatResponse)
    (sessions : Sessions) (msg : Message) (resp : ChatResponse)
    (hargs : fields msg.CommandArguments = [])
    (_hprior : GetSession sessions msg.FromID = none)
    (hresp : api (startRequest msg) = .ok resp) :
    (HandleStart api sessions msg).1 = NewMessage msg.ChatID resp.Output ∧
    GetSession (HandleStart api sessions msg).2 msg.FromID =
      some { UserID := "", ConversationID := resp.ConversationID } := by
  constructor
  · simp [HandleStart, hargs, hresp]
  · simp [HandleStart, hargs, hresp, GetSession, StartConversation]

/-- Closed instance of the C2 theorem: the spec scenario with user 42 and
backend response output hi, conversation identity abc123. -/
theorem handleStart_new_success_witness :
    (HandleStart (okBackend { Output := "hi", ConversationID := "abc123" })
        NewManager (sampleMsg 42 "")).1 = NewMessage 42 "hi" ∧
    GetSession (HandleStart (okBackend { Output := "hi", ConversationID := "abc123" })
        NewManager (sampleMsg 42 "")).2 42 =
      some { UserID := "", ConversationID := "abc123" } :=
  handleStart_new_success _ NewManager (sampleMsg 42 "")
    { Output := "hi", ConversationID := "abc123" } rfl rfl rfl

/-- Claim C3: when the backend exchange fails (whatever the error, e.g. an
HTTP 500 protocol error), a freeform-text event replies with the generic
error text and returns the session store exactly as it was; a failed
new-conversation command behaves the same with its own generic error
text. -/
theorem handlers_failure_leave_sessions_unchanged
    (api : ChatRequest → Except ApiError ChatResponse)
    (sessions : Sessions) (msg : Message) :
    ((∃ e, api (messageRequest sessions msg) = .error e) →
      HandleMessage api sessions msg =
        (NewMessage msg.ChatID "Error processing message", sessions)) ∧
    (fields msg.CommandArguments = [] →
      (∃ e, api (startRequest msg) = .error e) →
      HandleStart api sessions msg =
        (NewMessage msg.ChatID "Error starting new conversation", sessions)) := by
  constructor
  · rintro ⟨e, he⟩
    simp [HandleMessage, he]
  · rintro hargs ⟨e, he⟩
    simp [HandleStart, hargs, he]

/-- Closed instance of the C3 theorem: user 9 holding a session for
conversation prior, backend failing with the protocol error for
status 500; both dispatch paths reply with their generic error text and
return the store untouched. -/
theorem handlers_failure_leave_sessions_unchanged_witness :
    HandleMessage (fun _ => .error (ApiError.protocol 500))
        (StartConversation NewManager 9 "prior") (sampleMsg 9 "") =
      (NewMessage 9 "Error processing message",
        StartConversation NewManager 9 "prior") ∧
    HandleStart (fun _ => .error (ApiError.protocol 500))
        (StartConversation NewManager 9 "prior") (sampleMsg 9 "") =
      (NewMessage 9 "Error starting new conversation",
        StartConversation NewManager 9 "prior") :=
  ⟨(handlers_failure_leave_sessions_unchanged _
      (StartConversation NewManager 9 "prior") (sampleMsg 9 "")).1
      ⟨ApiError.protocol 500, rfl⟩,
    (handlers_failure_leave_sessions_unchanged _
      (StartConversation NewManager 9 "prior") (sampleMsg 9 "")).2 rfl
      ⟨ApiError.protocol 500, rfl⟩⟩

/-- Claim C5: a resume command carrying an explicit conversation-identity
argument never contacts the backend (the outcome is the same for every
backend), replies with the text Loaded conversation followed by the
argument, and installs a session for the sender holding exactly that
identity, which a subsequent get returns. -/
theorem handleStart_resume_no_backend
    (api : ChatRequest → Except ApiError ChatResponse)
    (sessions : Sessions) (msg : Message) (a : String) (rest : List String)
    (hargs : fields msg.CommandArguments = a :: rest) :
    (∀ api2, HandleStart api2 sessions msg = HandleStart api sessions msg) ∧
    HandleStart api sessions msg =
      (NewMessage msg.ChatID ("Loaded conversation: " ++ a),
        UpdateSession sessions msg.FromID { UserID := "", ConversationID := a }) ∧
    GetSession (HandleStart api sessions msg).2 msg.FromID =
      some { UserID := "", ConversationID := a } := by
  refine ⟨fun api2 => by simp [HandleStart, hargs], by simp [HandleStart, hargs], ?_⟩
  simp [HandleStart, hargs, GetSession, UpdateSession]

/-- Closed instance of the C5 theorem: the spec scenario with user 7 and
argument xyz, run against the failing backend to show the backend is
never consulted. -/
theorem handleStart_resume_no_backend_witness :
    HandleStart failBackend NewManager (sampleMsg 7 "xyz") =
      (NewMessage 7 ("Loaded conversation: " ++ "xyz"),
        UpdateSession NewManager 7 { UserID := "", ConversationID := "xyz" }) ∧
    GetSession (HandleStart failBackend NewManager (sampleMsg 7 "xyz")).2 7 =
      some { UserID := "", ConversationID := "xyz" } :=
  ⟨(handleStart_resume_no_backend failBackend NewManager (sampleMsg 7 "xyz")
      "xyz" [] rfl).2.1,
    (handleStart_resume_no_backend failBackend NewManager (sampleMsg 7 "xyz")
      "xyz" [] rfl).2.2⟩

/-- Every session value the dispatch paths ever store carries an empty
UserID field: the user identity lives only in the key of the map. -/
def StoreInv (s : Sessions) : Prop :=
  ∀ u sess, s u = some sess → sess.UserID = ""

/-- The start operation only ever installs sessions with an empty UserID
field. -/
theorem storeInv_startConversation (m : Sessions) (hinv : StoreInv m)
    (u : Int) (c : String) : StoreInv (StartConversation m u c) := by
  intro k sess hk
  simp only [StartConversation] at hk
  split at hk
  · injection hk with h2
    rw [← h2]
  · exact hinv k sess hk

theorem storeInv_updateSession (m : Sessions) (hinv : StoreInv m)
    (u : Int) (a : String) :
    StoreInv (UpdateSession m u { UserID := "", ConversationID := a }) := by
  intro k sess hk
  simp only [UpdateSession] at hk
  split at hk
  · injection hk with h2
    rw [← h2]
  · exact hinv k sess hk

/-- Claim C10: both session-writing dispatch paths preserve the invariant
that stored sessions have an empty UserID field, and the user identity
placed in a backend chat request is always rendered from the inbound
sender identity, never read from the stored session. -/
theorem dispatch_preserves_empty_userID
    (api : ChatRequest → Except ApiError ChatResponse)
    (sessions : Sessions) (msg : Message) (hinv : StoreInv sessions) :
    StoreInv (HandleStart api sessions msg).2 ∧
    StoreInv (HandleMessage api sessions msg).2 ∧
    (messageRequest sessions msg).UserID = toString msg.FromID ∧
    (startRequest msg).UserID = toString msg.FromID := by
  refine ⟨?_, ?_, rfl, rfl⟩
  · rcases hfs : fields msg.CommandArguments with _ | ⟨a, rest⟩
    · rcases hapi : api (startRequest msg) with e | resp
      · simpa [HandleStart, hfs, hapi] using hinv
      · simpa [HandleStart, hfs, hapi] using
          storeInv_startConversation sessions hinv msg.FromID resp.ConversationID
    · simpa [HandleStart, hfs] using
        storeInv_updateSession sessions hinv msg.FromID a
  · rcases hapi : api (messageRequest sessions msg) with e | resp
    · simpa [HandleMessage, hapi] using hinv
    · by_cases hcid : sessionConversationID sessions msg.FromID = ""
      · simpa [HandleMessage, hapi, hcid] using
          storeInv_startConversation sessions hinv msg.FromID resp.ConversationID
      · simpa [HandleMessage, hapi, hcid] using hinv

/-- Closed instance of the C10 theorem at user 3 with the empty store and
the always-succeeding backend. -/
theorem dispatch_preserves_empty_userID_witness :
    StoreInv (HandleStart (okBackend { Output := "o", ConversationID := "c" })
        NewManager (sampleMsg 3 "")).2 ∧
    (messageRequest NewManager (sampleMsg 3 "")).UserID = "3" :=
  ⟨(dispatch_preserves_empty_userID
      (okBackend { Output := "o", ConversationID := "c" }) NewManager
      (sampleMsg 3 "") (fun _ _ h => Option.noConfusion h)).1,
    (dispatch_preserves_empty_userID
      (okBackend { Output := "o", ConversationID := "c" }) NewManager
      (sampleMsg 3 "") (fun _ _ h => Option.noConfusion h)).2.2.1⟩

/-- Claim C4: one call to SendMessage is fully determined by the single
HTTP exchange it performs (conjunct two: only the one application of post
to the request matters, so there is no retry), and it either fully
succeeds with the decoded body, or fully fails with exactly one error of
the taxonomy: transport when no connection is established within the fixed
30-second client budget, protocol when the status is not success, decoding
when the body does not decode; no partial result is exposed in any
branch. -/
theorem sendMessage_atomic_taxonomy
    (post : ChatRequest → Option HttpResponse) (req : ChatRequest) :
    ((post req = none ∧ SendMessage post req = .error ApiError.transport) ∨
      (∃ r, post req = some r ∧ r.StatusCode ≠ StatusOK ∧
        SendMessage post req = .error (ApiError.protocol r.StatusCode)) ∨
      (∃ r, post req = some r ∧ r.StatusCode = StatusOK ∧ r.DecodedBody = none ∧
        SendMessage post req = .error ApiError.decoding) ∨
      (∃ r c, post req = some r ∧ r.StatusCode = StatusOK ∧ r.DecodedBody = some c ∧
        SendMessage post req = .ok c)) ∧
    SendMessage post req = SendMessage (fun _ => post req) req ∧
    (∀ url, (NewClient url).timeoutSeconds = 30) := by
  refine ⟨?_, rfl, fun url => rfl⟩
  rcases hp : post req with _ | r
  · exact Or.inl ⟨rfl, by simp [SendMessage, hp]⟩
  · by_cases hs : r.StatusCode = StatusOK
    · rcases hd : r.DecodedBody with _ | c0
      · exact Or.inr (Or.inr (Or.inl
          ⟨r, rfl, hs, hd, by simp [SendMessage, hp, hs, hd]⟩))
      · exact Or.inr (Or.inr (Or.inr
          ⟨r, c0, rfl, hs, hd, by simp [SendMessage, hp, hs, hd]⟩))
    · exact Or.inr (Or.inl ⟨r, rfl, hs, by simp [SendMessage, hp, hs]⟩)

/-- Every delivered conversation shows up, as one contiguous formatted
block, inside the successful listing reply. -/
theorem handleList_ok_contains (msg : Message) (convs : List Conversation) :
    ∀ c ∈ convs, ∃ s t,
      (HandleList (.ok convs) msg).Text = s ++ formatConversation c ++ t := by
  intro c hc
  rcases convs with _ | ⟨hd, tl⟩
  · cases hc
  · rcases renderConversations_mem_split c (hd :: tl) hc with ⟨s, t, hst⟩
    refine ⟨"Recent conversations:\n\n" ++ s, t, ?_⟩
    simp [HandleList, NewMessage, hst, String.append_assoc]

/-- Claim C8: an empty backend listing yields the distinct reply text
No conversations found, which is never the empty body; a non-empty listing
yields the header followed by one block per summary (identity, title,
creation time) concatenated in exactly the delivered order, and every
delivered summary appears in the body. -/
theorem handleList_empty_distinct_and_ordered
    (msg : Message) (convs : List Conversation) :
    HandleList (.ok []) msg = NewMessage msg.ChatID "No conversations found" ∧
    (HandleList (.ok []) msg).Text ≠ "" ∧
    (convs ≠ [] →
      HandleList (.ok convs) msg =
        NewMessage msg.ChatID
          ("Recent conversations:\n\n" ++ renderConversations convs)) ∧
    (∀ c ∈ convs, ∃ s t,
      (HandleList (.ok convs) msg).Text = s ++ formatConversation c ++ t) := by
  refine ⟨rfl, by simp [HandleList, NewMessage], ?_, handleList_ok_contains msg convs⟩
  intro hne
  rcases convs with _ | ⟨hd, tl⟩
  · exact absurd rfl hne
  · simp [HandleList, NewMessage]

/-- Closed instance of the C8 theorem: two concrete conversations are
rendered in delivered order after the header. -/
theorem handleList_empty_distinct_and_ordered_witness :
    HandleList
        (.ok [{ ID := "a", Title := "ta", CreatedAt := "2024-01-01 00:00:00" },
              { ID := "b", Title := "tb", CreatedAt := "2024-01-02 00:00:00" }])
        (sampleMsg 1 "") =
      NewMessage 1
        ("Recent conversations:\n\n" ++
          renderConversations
            [{ ID := "a", Title := "ta", CreatedAt := "2024-01-01 00:00:00" },
             { ID := "b", Title := "tb", CreatedAt := "2024-01-02 00:00:00" }]) :=
  (handleList_empty_distinct_and_ordered (sampleMsg 1 "")
      [{ ID := "a", Title := "ta", CreatedAt := "2024-01-01 00:00:00" },
       { ID := "b", Title := "tb", CreatedAt := "2024-01-02 00:00:00" }]).2.2.1
    (List.cons_ne_nil _ _)

/-- Claim C9: the configuration requires the authentication token (startup
is fatal exactly when it is absent), defaults the backend base URL to
http://localhost:8080 when unset, and declares a default listing size
limit of 10 that the listing path never enforces: the reply for any
backend result contains every returned conversation, whatever the
configured limit value (HandleList takes no limit at all). -/
theorem config_defaults_and_unbounded_listing
    (env : String → String) (msg : Message) (convs : List Conversation) :
    (env "TELEGRAM_BOT_TOKEN" = "" → startupFatal (Config.New env) = true) ∧
    (env "TELEGRAM_BOT_TOKEN" ≠ "" →
      startupFatal (Config.New env) = false ∧
      (Config.New env).TelegramToken = env "TELEGRAM_BOT_TOKEN") ∧
    (env "API_SERVER_URL" = "" →
      (Config.New env).APIServerURL = "http://localhost:8080") ∧
    (env "DEFAULT_CONVERSATION_LIMIT" = "" →
      (Config.New env).DefaultConversationLimit = 10) ∧
    (∀ c ∈ convs, ∃ s t,
      (HandleList (.ok convs) msg).Text = s ++ formatConversation c ++ t) := by
  refine ⟨?_, ?_, ?_, ?_, handleList_ok_contains msg convs⟩
  · intro h
    simp [startupFatal, Config.New, getEnvOrDefault, h]
  · intro h
    constructor
    · simp [startupFatal, Config.New, getEnvOrDefault, h]
    · simp [Config.New, getEnvOrDefault, h]
  · intro h
    simp [Config.New, getEnvOrDefault, h]
  · intro h
    simp [Config.New, getEnvIntOrDefault, h]

/-- Closed instance of the C9 theorem at the fully unset environment: the
startup check fires, the URL and limit take their defaults, and a concrete
conversation appears in the listing reply. -/
theorem config_defaults_and_unbounded_listing_witness :
    startupFatal (Config.New (fun _ => "")) = true ∧
    (Config.New (fun _ => "")).APIServerURL = "http://localhost:8080" ∧
    (Config.New (fun _ => "")).DefaultConversationLimit = 10 ∧
    (∃ s t,
      (HandleList (.ok [{ ID := "a", Title := "t", CreatedAt := "c" }])
          (sampleMsg 1 "")).Text =
        s ++ formatConversation { ID := "a", Title := "t", CreatedAt := "c" } ++ t) :=
  ⟨(config_defaults_and_unbounded_listing (fun _ => "") (sampleMsg 1 "")
      [{ ID := "a", Title := "t", CreatedAt := "c" }]).1 rfl,
    (config_defaults_and_unbounded_listing (fun _ => "") (sampleMsg 1 "")
      [{ ID := "a", Title := "t", CreatedAt := "c" }]).2.2.1 rfl,
    (config_defaults_and_unbounded_listing (fun _ => "") (sampleMsg 1 "")
      [{ ID := "a", Title := "t", CreatedAt := "c" }]).2.2.2.1 rfl,
    (config_defaults_and_unbounded_listing (fun _ => "") (sampleMsg 1 "")
      [{ ID := "a", Title := "t", CreatedAt := "c" }]).2.2.2.2
      { ID := "a", Title := "t", CreatedAt := "c" } (List.mem_singleton.mpr rfl)⟩
